import Mathlib

/-!
Shallow embedding of the two FastAPI backends of this repository
(`src/backend/app/main.py`, the authenticated variant, and `src/main.py`,
the unauthenticated variant).

Strings are modelled by Lean `String`; the byte content of files is modelled
by an abstract `String` (the bytes the PDF library produces are outside the
program's logic).  The filesystem is an association list from paths to
contents, the audit database a list of rows.  The reportlab page-geometry
arithmetic is over `ℚ`: the Python floats involved are `A4` coordinates with
fractional part far from any decision threshold, and every subtraction of a
small integer from them is exact in double precision, so the rational model
decides every comparison the program decides, identically.
-/

/-! ### Python string primitives used by the handlers -/

/-- Whitespace in the sense of Python's `str.strip()` (ASCII cases). -/
def isPySpace (c : Char) : Bool :=
  c == ' ' || c == '\t' || c == '\n' || c == '\r' || c == '\x0b' || c == '\x0c'

/-- Python `s.strip()`: remove leading and trailing whitespace
(right-strip first, then left-strip; the order is immaterial). -/
def pyStrip (s : String) : String :=
  ⟨((s.data.reverse.dropWhile isPySpace).reverse).dropWhile isPySpace⟩

/-- Python `s.split(sep)` for a one-character separator, over character
lists; `splitChar sep l` always returns at least one (possibly empty)
segment, exactly as `"".split(sep) == [""]` in Python. -/
def splitChar (sep : Char) : List Char → List (List Char)
  | [] => [[]]
  | c :: rest =>
    match splitChar sep rest with
    | [] => [[c]]
    | seg :: segs => if c = sep then [] :: seg :: segs else (c :: seg) :: segs

/-- Python `s.split("\n")`. -/
def pySplitNl (s : String) : List String :=
  (splitChar '\n' s.data).map List.asString

/-- Number of newline characters embedded in a string. -/
def newlineCount (s : String) : Nat :=
  s.data.count '\n'

/-! ### Python `os.path` primitives (POSIX semantics) -/

/-- Python `s.startswith("/")`. -/
def osStartsWithSlash (s : String) : Bool :=
  s.data.head? == some '/'

/-- Python `s.endswith("/")`. -/
def osEndsWithSlash (s : String) : Bool :=
  s.data.getLast? == some '/'

/-- Python `os.path.join(a, b)` on POSIX: an absolute second component
replaces the first entirely; otherwise a separator is inserted unless the
first component is empty or already ends with one. -/
def osJoin (a b : String) : String :=
  if osStartsWithSlash b then b
  else if (a == "") || osEndsWithSlash a then a ++ b
  else a ++ "/" ++ b

/-- Python `os.path.basename(p)` on POSIX: everything after the last `/`. -/
def osBasename (s : String) : String :=
  ⟨(s.data.reverse.takeWhile (fun c => c != '/')).reverse⟩

/-- Association-list lookup, modelling both the Python dict of users and the
server filesystem (a finite map from path to file content). -/
def pyLookup {α : Type} : List (String × α) → String → Option α
  | [], _ => none
  | (q, v) :: rest, k => if q = k then some v else pyLookup rest k

/-! ### Shared constants of both variants -/

/-- Constant `OUTPUT_DIR = "generated_pdfs"` (both variants). -/
def OUTPUT_DIR : String := "generated_pdfs"

/-! ### Audit store and authentication (authenticated variant only) -/

/-- One row of the `audit_logs` table.  The `timestamp` column defaults to
the insertion time and plays no role in the claims modelled here, so it is
omitted from the row. -/
structure AuditRow where
  username : String
  action : String
deriving DecidableEq

/-- Function `log_action` (src/backend/app/main.py, lines 112–115): add one row and
commit, i.e. append it to the table. -/
def log_action (db : List AuditRow) (username action : String) : List AuditRow :=
  db ++ [{ username := username, action := action }]

/-- Model `UserInDB` (pydantic model plus hash field). -/
structure UserInDB where
  username : String
  full_name : Option String
  disabled : Option Bool
  hashed_password : String
deriving DecidableEq

/-- Table `fake_users_db` (src/backend/app/main.py, lines 38–45): the single
static demo user; note `disabled` is `False`. -/
def fake_users_db : List (String × UserInDB) :=
  [("admin",
    { username := "admin"
      full_name := some "Admin User"
      disabled := some false
      hashed_password := "$2b$12$KIXQ1q6v6q6q6q6q6q6q6u6q6q6q6q6q6q6q6q6q6q6q6q6q6q6q6" })]

/-- Function `get_user` (lines 69–72): dict lookup, `none` when absent. -/
def get_user (db : List (String × UserInDB)) (username : String) : Option UserInDB :=
  pyLookup db username

/-- An `HTTPException` as raised by the validation chain. -/
structure AuthErr where
  status_code : Nat
  detail : String
deriving DecidableEq

/-- The single `credentials_exception` (lines 90–94): 401, fixed detail. -/
def credentials_exception : AuthErr :=
  { status_code := 401, detail := "Could not validate credentials" }

/-- Outcome of `jwt.decode` on the presented token: a `JWTError` (which
subsumes a bad signature and an `ExpiredSignatureError`), or a decoded
payload whose `sub` claim may be absent. -/
inductive JwtDecode where
  | badSignature
  | expired
  | noSub
  | sub (username : String)
deriving DecidableEq

/-- Dependency `get_current_user` (lines 89–105): any `JWTError` or missing subject
raises `credentials_exception`; otherwise the subject is looked up in the
hard-coded `fake_users_db` and an unknown subject also raises it. -/
def get_current_user_run (d : JwtDecode) : Except AuthErr UserInDB :=
  match d with
  | .badSignature => .error credentials_exception
  | .expired => .error credentials_exception
  | .noSub => .error credentials_exception
  | .sub username =>
    match get_user fake_users_db username with
    | none => .error credentials_exception
    | some u => .ok u

/-- Dependency `get_current_active_user` (lines 107–110): a truthy `disabled` flag
raises 400 "Inactive user". -/
def get_current_active_user_run (d : JwtDecode) : Except AuthErr UserInDB :=
  match get_current_user_run d with
  | .error e => .error e
  | .ok u => if u.disabled = some true then .error { status_code := 400, detail := "Inactive user" } else .ok u

/-- A protected call's bearer token: absent, or present with a given
`jwt.decode` outcome. -/
inductive BearerToken where
  | missing
  | present (d : JwtDecode)
deriving DecidableEq

/-- Modelled from the spec: the OAuth2 bearer scheme that guards protected
calls is library code not present under src/; the spec states that a missing
token, like every other validation failure, "uniformly yields an
authorization failure", i.e. a 401 response.  A present token goes through
the in-source validation chain. -/
def protected_guard (b : BearerToken) : Except AuthErr UserInDB :=
  match b with
  | .missing => .error { status_code := 401, detail := "Not authenticated" }
  | .present d => get_current_active_user_run d

/-! ### Upload (`POST /upload/`, both variants) -/

/-- Outcome of `pdfplumber.open` plus per-page `extract_text`: either the
library raises while opening/extracting, or it yields one optional text per
page (`none` models Python `None` for a page with no text layer). -/
inductive PdfOutcome where
  | parseError
  | parsed (pages : List (Option String))
deriving DecidableEq

/-- Final value of the accumulation loop (authenticated variant lines
132–138, unauthenticated lines 32–37): every truthy page text contributes
`text + "\n"`, in page order. -/
def extractedText : List (Option String) → String
  | [] => ""
  | t :: rest =>
    match t with
    | some s => if s = "" then extractedText rest else s ++ "\n" ++ extractedText rest
    | none => extractedText rest

/-- The page texts that contribute to the result (truthy ones, in order). -/
def nonEmptyTexts : List (Option String) → List String
  | [] => []
  | t :: rest =>
    match t with
    | some s => if s = "" then nonEmptyTexts rest else s :: nonEmptyTexts rest
    | none => nonEmptyTexts rest

/-- Modelled from the spec's words ("pages joined by newline"), for
comparison with the code's accumulate-then-strip shape. -/
def joinByNewline : List String → String
  | [] => ""
  | [s] => s
  | s :: rest => s ++ "\n" ++ joinByNewline rest

/-- Result of the authenticated `upload_pdf` (lines 126–147): the temp file
is written, extraction runs inside `try`, and `os.remove` sits in
`finally`, so the temp file is deleted on both paths; on success one audit
row is logged and the stripped text returned, on a parse error the
exception propagates (`response = none`) and nothing is logged. -/
structure UploadResult where
  response : Option String
  tempDeleted : Bool
  audit : List AuditRow
deriving DecidableEq

/-- Authenticated `POST /upload/` as a transition on the audit store. -/
def upload_pdf_auth (user : String) (pdf : PdfOutcome) (db : List AuditRow) : UploadResult :=
  match pdf with
  | .parseError => { response := none, tempDeleted := true, audit := db }
  | .parsed pages =>
    { response := some (pyStrip (extractedText pages))
      tempDeleted := true
      audit := log_action db user "Uploaded PDF and extracted text" }

/-- Unauthenticated `upload_pdf` (src/main.py lines 23–41): no
`try/finally`; `os.remove` (line 39) is reached only when extraction did
not raise, so a parse error propagates with the temp file left behind. -/
def upload_pdf_plain (pdf : PdfOutcome) : Option String × Bool :=
  match pdf with
  | .parseError => (none, false)
  | .parsed pages => (some (pyStrip (extractedText pages)), true)

/-! ### FIR generation (`POST /generate/`) -/

/-- The reportlab `mm` unit: 72/25.4 points, modelled exactly. -/
def mmUnit : ℚ := 72 / 25.4

/-- Height of reportlab's `A4 = (210*mm, 297*mm)`. -/
def A4height : ℚ := 297 * mmUnit

/-- One `c.drawString(x, y, text)` call, tagged with the page it lands on
(page 0 is the first page; `c.showPage()` increments it). -/
structure DrawOp where
  page : Nat
  x : ℚ
  y : ℚ
  text : String
deriving DecidableEq

/-- The complaint loop of the authenticated `generate_fir` (lines 177–184):
for each segment of `complaint_text.split("\n")`, if the cursor has fallen
below the bottom margin a new page is started and the cursor reset to the
top margin; the stripped segment is then drawn and the cursor advanced by
15 points. -/
def drawComplaint : List String → ℚ → Nat → List DrawOp
  | [], _, _ => []
  | line :: rest, y, page =>
    if y < 50 then
      { page := page + 1, x := 50, y := A4height - 50, text := pyStrip line } ::
        drawComplaint rest (A4height - 50 - 15) (page + 1)
    else
      { page := page, x := 50, y := y, text := pyStrip line } ::
        drawComplaint rest (y - 15) page

/-- All `drawString` calls of the authenticated `generate_fir` (lines
159–184), in order: four header draws with hand-advanced cursor, then the
complaint loop starting where the header left the cursor. -/
def generate_fir_draws (fir_no victim_name fraud_amount complaint_text : String) : List DrawOp :=
  [ { page := 0, x := 50, y := A4height - 50, text := "FIR No.: " ++ fir_no }
  , { page := 0, x := 50, y := A4height - 50 - 30, text := "Victim Name: " ++ victim_name }
  , { page := 0, x := 50, y := A4height - 50 - 30 - 20, text := "Fraud Amount: " ++ fraud_amount }
  , { page := 0, x := 50, y := A4height - 50 - 30 - 20 - 40, text := "Complaint Details:" } ]
  ++ drawComplaint (pySplitNl complaint_text) (A4height - 50 - 30 - 20 - 40 - 20) 0

/-- Path `output_filename` built as OUTPUT_DIR, then "/FIR_", the uuid text, then ".pdf". -/
def outputFilename (u : String) : String :=
  OUTPUT_DIR ++ "/FIR_" ++ u ++ ".pdf"

/-- Result of the authenticated `generate_fir` (lines 149–192). -/
structure GenerateResult where
  download_link : String
  draws : List DrawOp
  fs : List (String × String)
  audit : List AuditRow

/-- Authenticated `POST /generate/` as a transition on the filesystem and
the audit store; `u` is the generated uuid text and `content` the bytes
`c.save()` writes for the drawn trace. -/
def generate_fir_auth (u user fir_no victim_name fraud_amount complaint_text content : String)
    (fs : List (String × String)) (db : List AuditRow) : GenerateResult :=
  { download_link := "/download/" ++ osBasename (outputFilename u)
  , draws := generate_fir_draws fir_no victim_name fraud_amount complaint_text
  , fs := (outputFilename u, content) :: fs
  , audit := log_action db user ("Generated FIR PDF " ++ outputFilename u) }

/-- The texts passed to the seven `drawString` calls of the unauthenticated
`generate_fir` (src/main.py lines 44–116), in order.  Note that
`complaint_text` is accepted as a form field (line 51) but never referenced
again: no draw call uses it. -/
def generate_fir_plain_texts (fir_no fir_date sect victim_name fraud_amount complaint_text : String) :
    List String :=
  [ "FIR no.: " ++ fir_no ++ " dated " ++ fir_date
  , "Under Section: " ++ sect
  , "Victim’s Name: " ++ victim_name
  , "Total Fraud Amount: " ++ fraud_amount ++ " /- INR"
  , "Notes:-"
  , "Flow Chart"
  , "Flow chart diagram goes here" ]

/-! ### Download (`GET /download/{filename}`, both variants) -/

/-- The path the handler looks up: `os.path.join(OUTPUT_DIR, filename)`
with the caller-supplied filename as given. -/
def downloadPath (filename : String) : String :=
  osJoin OUTPUT_DIR filename

/-- Response of `download_file`: a `FileResponse` streaming the content at
the looked-up path with the given download filename and media type, or the
in-body JSON error dict (returned with a 200 status, not raised). -/
inductive DownloadResp where
  | fileResponse (content filename mediaType : String)
  | jsonError (error : String)
deriving DecidableEq

/-- Handler `download_file` (authenticated lines 194–200, unauthenticated lines
119–125; both bodies are identical): existence check on the joined path,
then stream-or-error. -/
def download_file_run (filename : String) (fs : List (String × String)) : DownloadResp :=
  match pyLookup fs (downloadPath filename) with
  | some content => .fileResponse content filename "application/pdf"
  | none => .jsonError "File not found"

/-- The authenticated `download_file` as a transition on the audit store:
its body contains no `log_action` call, so the store passes through
unchanged. -/
def download_file_auth (user filename : String) (fs : List (String × String))
    (db : List AuditRow) : DownloadResp × List AuditRow :=
  (download_file_run filename fs, db)

/-! ### String helper lemmas -/

theorem str_append_empty (s : String) : s ++ "" = s :=
  String.ext (by simp [String.data_append])

theorem str_empty_append (s : String) : "" ++ s = s :=
  String.ext (by simp [String.data_append])

theorem str_append_assoc (a b c : String) : a ++ b ++ c = a ++ (b ++ c) :=
  String.ext (by simp [String.data_append])

theorem pyStrip_append_newline (x : String) : pyStrip (x ++ "\n") = pyStrip x := by
  have h : (x ++ "\n").data = x.data ++ ['\n'] := String.data_append x "\n"
  simp [pyStrip, h, List.reverse_append, List.dropWhile_cons, isPySpace]

/-! ### Extraction lemmas -/

theorem extractedText_of_no_texts (pages : List (Option String))
    (h : nonEmptyTexts pages = []) : extractedText pages = "" := by
  induction pages with
  | nil => rfl
  | cons t rest ih =>
    cases t with
    | none =>
      simp only [nonEmptyTexts] at h
      simpa only [extractedText] using ih h
    | some s =>
      by_cases hs : s = ""
      · simp only [nonEmptyTexts, hs, if_pos rfl] at h
        simpa only [extractedText, hs, if_pos rfl] using ih h
      · simp [nonEmptyTexts, hs] at h

theorem joinByNewline_cons (s : String) (L : List String) (h : L ≠ []) :
    joinByNewline (s :: L) = s ++ "\n" ++ joinByNewline L := by
  cases L with
  | nil => exact absurd rfl h
  | cons a t => rfl

theorem extractedText_of_texts (pages : List (Option String))
    (h : nonEmptyTexts pages ≠ []) :
    extractedText pages = joinByNewline (nonEmptyTexts pages) ++ "\n" := by
  induction pages with
  | nil => simp [nonEmptyTexts] at h
  | cons t rest ih =>
    cases t with
    | none =>
      simp only [nonEmptyTexts] at h ⊢
      simpa only [extractedText] using ih h
    | some s =>
      by_cases hs : s = ""
      · simp only [nonEmptyTexts, hs, if_pos rfl] at h ⊢
        simpa only [extractedText, hs, if_pos rfl] using ih h
      · simp only [nonEmptyTexts, if_neg hs] at h ⊢
        by_cases hr : nonEmptyTexts rest = []
        · rw [hr]
          simp only [extractedText, if_neg hs]
          rw [extractedText_of_no_texts rest hr, str_append_empty]
          rfl
        · simp only [extractedText, if_neg hs]
          rw [ih hr, joinByNewline_cons s _ hr]
          simp only [str_append_assoc]

/-- Claim C5 (amended): for every parseable PDF the returned string is the
newline-join of the truthy per-page texts, additionally stripped of leading
and trailing whitespace (the code accumulates `text + "\n"` per page and
calls `.strip()` at the end); a PDF none of whose pages yields text — e.g.
all pages are images — returns the empty string. -/
theorem extraction_join_strip :
    (∀ pages, pyStrip (extractedText pages) = pyStrip (joinByNewline (nonEmptyTexts pages))) ∧
    (∀ n, pyStrip (extractedText (List.replicate n none)) = "") := by
  constructor
  · intro pages
    by_cases h : nonEmptyTexts pages = []
    · rw [extractedText_of_no_texts pages h, h]
      rfl
    · rw [extractedText_of_texts pages h, pyStrip_append_newline]
  · intro n
    induction n with
    | zero => rfl
    | succ n ih => simpa only [List.replicate_succ, extractedText] using ih

/-- Claim C5, counterexample to the literal statement: a page whose
extracted text carries trailing whitespace is not returned verbatim-joined;
the final `.strip()` alters it, so the result is not "the per-page
extracted texts joined by newline". -/
theorem extraction_not_plain_join :
    pyStrip (extractedText [some "a "]) = "a" ∧
    joinByNewline (nonEmptyTexts [some "a "]) = "a " ∧
    pyStrip (extractedText [some "a "]) ≠ joinByNewline (nonEmptyTexts [some "a "]) := by
  refine ⟨by decide, by decide, by decide⟩

/-- Claim C2 (amended): the authenticated variant deletes the temp file on
every path (its `os.remove` is in a `finally`), and a parse error still
propagates; the unauthenticated variant deletes the temp file only when
extraction succeeds — on a parse error the exception propagates with the
temp file left behind. -/
theorem temp_file_deletion :
    (∀ user pdf db, (upload_pdf_auth user pdf db).tempDeleted = true) ∧
    (∀ user db, (upload_pdf_auth user .parseError db).response = none) ∧
    (∀ pages, upload_pdf_plain (.parsed pages) =
        (some (pyStrip (extractedText pages)), true)) ∧
    upload_pdf_plain .parseError = (none, false) := by
  refine ⟨fun user pdf db => ?_, fun _ _ => rfl, fun _ => rfl, rfl⟩
  cases pdf <;> rfl

/-- Claim C2, counterexample to the literal statement: in the
unauthenticated variant an upload whose PDF fails to parse propagates the
error (`response = none`) with the temp file NOT deleted, contradicting
"the temp file is deleted ... in either variant ... even when the PDF
library raises". -/
theorem plain_upload_leaves_temp_on_error :
    (upload_pdf_plain .parseError).2 = false ∧
    (upload_pdf_plain .parseError).1 = none :=
  ⟨rfl, rfl⟩

/-- Claim C1 (amended): in the authenticated variant, a successful
`POST /upload/` and every `POST /generate/` each append exactly one row to
the audit table, carrying the acting user's username, before the response
is produced; `GET /download/{filename}` contains no logging call and leaves
the audit table unchanged. -/
theorem protected_ops_audit_rows :
    (∀ user pages db, (upload_pdf_auth user (.parsed pages) db).audit =
        db ++ [{ username := user, action := "Uploaded PDF and extracted text" }]) ∧
    (∀ u user fir_no victim_name fraud_amount complaint_text content fs db,
        (generate_fir_auth u user fir_no victim_name fraud_amount complaint_text content fs db).audit =
        db ++ [{ username := user, action := "Generated FIR PDF " ++ outputFilename u }]) ∧
    (∀ user filename fs db, (download_file_auth user filename fs db).2 = db) :=
  ⟨fun _ _ _ => rfl, fun _ _ _ _ _ _ _ _ _ => rfl, fun _ _ _ _ => rfl⟩

/-- Claim C1, counterexample to the literal statement: a successful
authenticated download (the requested file exists and is streamed back)
appends no audit row — the audit table stays empty, not extended by one. -/
theorem download_appends_no_audit_row :
    (download_file_auth "admin" "f.pdf" [("generated_pdfs/f.pdf", "BYTES")] []).1 =
      .fileResponse "BYTES" "f.pdf" "application/pdf" ∧
    ((download_file_auth "admin" "f.pdf" [("generated_pdfs/f.pdf", "BYTES")] []).2).length = 0 :=
  ⟨by decide, rfl⟩

/-! ### Token validation lemmas -/

/-- Claim C4: every token-validation failure on a protected call yields an
authorization failure with status 401, and every failure raised by the
in-source validation chain (bad signature, expired token, absent or unknown
subject) is literally the single `credentials_exception`.  The
disabled-account branch of `get_current_active_user` would yield a 400, but
the static user table contains no disabled user, so that branch never
produces a failure; the missing-token rejection is library behaviour
modelled from the spec as an authorization failure. -/
theorem token_validation_uniform_401 :
    (∀ d e, get_current_active_user_run d = .error e → e = credentials_exception) ∧
    (∀ b e, protected_guard b = .error e → e.status_code = 401) := by
  have hchain : ∀ d e, get_current_active_user_run d = .error e → e = credentials_exception := by
    intro d e h
    cases d with
    | badSignature => simpa [get_current_active_user_run, get_current_user_run] using h.symm
    | expired => simpa [get_current_active_user_run, get_current_user_run] using h.symm
    | noSub => simpa [get_current_active_user_run, get_current_user_run] using h.symm
    | sub username =>
      by_cases hu : ("admin" : String) = username
      · simp [get_current_active_user_run, get_current_user_run, get_user, fake_users_db,
          pyLookup, if_pos hu] at h
      · simpa [get_current_active_user_run, get_current_user_run, get_user, fake_users_db,
          pyLookup, if_neg hu] using h.symm
  refine ⟨hchain, fun b e h => ?_⟩
  cases b with
  | missing =>
    simp only [protected_guard] at h
    cases h
    rfl
  | present d =>
    rw [hchain d e (by simpa [protected_guard] using h)]
    rfl

/-- Claim C4, witness: an expired token is rejected with the 401
credentials error, whose status code the theorem pins to 401. -/
theorem token_validation_uniform_401_witness :
    credentials_exception.status_code = 401 :=
  token_validation_uniform_401.2 (.present .expired) credentials_exception (by rfl)

/-! ### Download behaviour -/

/-- Claim C7: for every filename, if the joined path exists in the
filesystem its content is streamed back as a `FileResponse` with media type
`application/pdf`; otherwise the handler returns the in-body JSON error
dict with message "File not found" (a structured 200 body, not a raised
404 and not a server error). -/
theorem download_found_or_error :
    (∀ filename fs content, pyLookup fs (downloadPath filename) = some content →
        download_file_run filename fs = .fileResponse content filename "application/pdf") ∧
    (∀ filename fs, pyLookup fs (downloadPath filename) = none →
        download_file_run filename fs = .jsonError "File not found") := by
  constructor
  · intro filename fs content h
    simp [download_file_run, h]
  · intro filename fs h
    simp [download_file_run, h]

/-- Claim C7, witness: a present file is streamed, an absent one yields the
structured error body. -/
theorem download_found_or_error_witness :
    download_file_run "a.pdf" [("generated_pdfs/a.pdf", "BYTES")] =
      .fileResponse "BYTES" "a.pdf" "application/pdf" ∧
    download_file_run "nope.pdf" [] = .jsonError "File not found" :=
  ⟨download_found_or_error.1 "a.pdf" [("generated_pdfs/a.pdf", "BYTES")] "BYTES" (by decide),
   download_found_or_error.2 "nope.pdf" [] (by decide)⟩

/-- Claim C9: the looked-up path is exactly `os.path.join(OUTPUT_DIR,
filename)` with the caller-supplied filename as given: a relative filename
— including one carrying parent-directory segments, which are not rejected
or canonicalized — is appended after a separator, and an absolute filename
replaces the output directory entirely. -/
theorem download_path_join_semantics :
    (∀ filename, osStartsWithSlash filename = false →
        downloadPath filename = "generated_pdfs/" ++ filename) ∧
    (∀ filename, osStartsWithSlash filename = true → downloadPath filename = filename) ∧
    downloadPath "../../etc/passwd" = "generated_pdfs/../../etc/passwd" := by
  refine ⟨fun filename h => ?_, fun filename h => ?_, by decide⟩
  · simp only [downloadPath, osJoin, h, Bool.false_eq_true, if_false]
    rw [if_neg (by decide)]
    rw [show OUTPUT_DIR ++ "/" = "generated_pdfs/" from rfl]
  · simp only [downloadPath, osJoin, h, if_true]

/-- Claim C9, witness: a parent-directory filename is joined verbatim and an
absolute filename replaces the directory. -/
theorem download_path_join_semantics_witness :
    downloadPath "../x" = "generated_pdfs/" ++ "../x" ∧
    downloadPath "/etc/passwd" = "/etc/passwd" :=
  ⟨download_path_join_semantics.1 "../x" (by decide),
   download_path_join_semantics.2.1 "/etc/passwd" (by decide)⟩

/-! ### Split and complaint-loop lemmas -/

theorem splitChar_ne_nil (sep : Char) (l : List Char) : splitChar sep l ≠ [] := by
  cases l with
  | nil => simp [splitChar]
  | cons c rest =>
    simp only [splitChar]
    rcases h : splitChar sep rest with _ | ⟨seg, segs⟩
    · simp
    · by_cases hc : c = sep <;> simp [hc]

theorem splitChar_length (sep : Char) (l : List Char) :
    (splitChar sep l).length = l.count sep + 1 := by
  induction l with
  | nil => rfl
  | cons c rest ih =>
    simp only [splitChar]
    rcases h : splitChar sep rest with _ | ⟨seg, segs⟩
    · exact absurd h (splitChar_ne_nil sep rest)
    · rw [h] at ih
      by_cases hc : c = sep
      · simp only [if_pos hc, List.length_cons] at ih ⊢
        rw [ih, hc, List.count_cons_self]
      · simp only [if_neg hc, List.length_cons] at ih ⊢
        rw [ih, List.count_cons_of_ne (Ne.symm hc)]

theorem pySplitNl_length (s : String) : (pySplitNl s).length = newlineCount s + 1 := by
  simp [pySplitNl, splitChar_length, newlineCount]

theorem drawComplaint_texts (lines : List String) :
    ∀ y page, (drawComplaint lines y page).map DrawOp.text = lines.map pyStrip := by
  induction lines with
  | nil => intro y page; rfl
  | cons line rest ih =>
    intro y page
    by_cases hy : y < 50 <;> simp [drawComplaint, hy, ih]

theorem drawComplaint_length (lines : List String) (y : ℚ) (page : Nat) :
    (drawComplaint lines y page).length = lines.length := by
  have h := congrArg List.length (drawComplaint_texts lines y page)
  simpa using h

/-- Claim C3 (amended): in the authenticated variant, `complaint_text` is
split on embedded newlines and each resulting segment, stripped, is drawn
as exactly one line after the four header draws; hence a text with N
embedded newlines yields at least N+1 drawn complaint lines.  (The
unauthenticated variant accepts `complaint_text` but never draws it; see
the counterexample.) -/
theorem auth_complaint_lines_drawn (fir_no victim_name fraud_amount complaint_text : String) :
    ((generate_fir_draws fir_no victim_name fraud_amount complaint_text).drop 4).map DrawOp.text =
      (pySplitNl complaint_text).map pyStrip ∧
    newlineCount complaint_text + 1 ≤
      ((generate_fir_draws fir_no victim_name fraud_amount complaint_text).drop 4).length := by
  have hdrop : (generate_fir_draws fir_no victim_name fraud_amount complaint_text).drop 4 =
      drawComplaint (pySplitNl complaint_text) (A4height - 50 - 30 - 20 - 40 - 20) 0 := by
    simp [generate_fir_draws]
  constructor
  · rw [hdrop, drawComplaint_texts]
  · rw [hdrop, drawComplaint_length, pySplitNl_length]

/-- Claim C3, counterexample to "in either variant": the unauthenticated
`generate_fir` binds `complaint_text` but draws none of its segments — its
draw-call texts for a complaint of two segments are identical to those for
an empty complaint, and the segment "SEGMENT_A" appears in no drawn text. -/
theorem plain_generate_ignores_complaint :
    generate_fir_plain_texts "1" "2024-01-01" "420" "V" "1000" "SEGMENT_A\nSEGMENT_B" =
      generate_fir_plain_texts "1" "2024-01-01" "420" "V" "1000" "" ∧
    ("SEGMENT_A" ∉ generate_fir_plain_texts "1" "2024-01-01" "420" "V" "1000" "SEGMENT_A\nSEGMENT_B") := by
  refine ⟨rfl, by decide⟩

theorem drawComplaint_head (line : String) (rest : List String) (y : ℚ) (page : Nat) :
    (drawComplaint (line :: rest) y page).head? =
      some (if y < 50
            then { page := page + 1, x := 50, y := A4height - 50, text := pyStrip line }
            else { page := page, x := 50, y := y, text := pyStrip line }) := by
  by_cases hy : y < 50 <;> simp [drawComplaint, hy]

/-- Claim C6: along the complaint loop's draw trace, whenever the cursor
after a drawn line (its y minus the 15-point advance) has fallen below the
bottom margin of 50, the next line is drawn on a fresh page (page index
incremented) at the top margin `A4height - 50`; otherwise it stays on the
same page 15 points lower.  The second conjunct states the same reset for
the first line of the loop when the incoming cursor is already below the
margin. -/
theorem pagination_reset_chain :
    (∀ lines y page, List.Chain'
        (fun o1 o2 : DrawOp =>
          if o1.y - 15 < 50 then o2.page = o1.page + 1 ∧ o2.y = A4height - 50
          else o2.page = o1.page ∧ o2.y = o1.y - 15)
        (drawComplaint lines y page)) ∧
    (∀ line rest y page, y < 50 →
        (drawComplaint (line :: rest) y page).head? =
          some { page := page + 1, x := 50, y := A4height - 50, text := pyStrip line }) := by
  constructor
  · intro lines
    induction lines with
    | nil =>
      intro y page
      simp [drawComplaint]
    | cons line rest ih =>
      intro y page
      by_cases hy : y < 50
      · simp only [drawComplaint, if_pos hy]
        apply List.chain'_cons'.mpr
        refine ⟨?_, ih _ _⟩
        intro o2 ho2
        cases rest with
        | nil => simp [drawComplaint] at ho2
        | cons l2 t =>
          rw [drawComplaint_head, Option.mem_def, Option.some_inj] at ho2
          subst ho2
          dsimp only
          by_cases h15 : (A4height - 50 - 15 : ℚ) < 50 <;> simp [h15]
      · simp only [drawComplaint, if_neg hy]
        apply List.chain'_cons'.mpr
        refine ⟨?_, ih _ _⟩
        intro o2 ho2
        cases rest with
        | nil => simp [drawComplaint] at ho2
        | cons l2 t =>
          rw [drawComplaint_head, Option.mem_def, Option.some_inj] at ho2
          subst ho2
          dsimp only
          by_cases h15 : (y - 15 : ℚ) < 50 <;> simp [h15]
  · intro line rest y page hy
    rw [drawComplaint_head, if_pos hy]

/-- Claim C6, witness: with the cursor at 0 (below the margin), the first
complaint line is drawn on the next page at the top margin. -/
theorem pagination_reset_chain_witness :
    (drawComplaint ["x"] 0 0).head? =
      some { page := 1, x := 50, y := A4height - 50, text := pyStrip "x" } :=
  pagination_reset_chain.2 "x" [] 0 0 (by norm_num)

theorem drawComplaint_y_bounds_aux (lines : List String) :
    ∀ y page, y ≤ A4height - 50 →
      ∀ op ∈ drawComplaint lines y page, 50 ≤ op.y ∧ op.y ≤ A4height - 50 := by
  induction lines with
  | nil =>
    intro y page hy op hop
    simp [drawComplaint] at hop
  | cons line rest ih =>
    intro y page hy op hop
    by_cases h50 : y < 50
    · simp only [drawComplaint, if_pos h50] at hop
      rcases List.mem_cons.mp hop with rfl | hmem
      · exact ⟨by norm_num [A4height, mmUnit], le_refl _⟩
      · exact ih _ _ (by linarith) op hmem
    · simp only [drawComplaint, if_neg h50] at hop
      rcases List.mem_cons.mp hop with rfl | hmem
      · exact ⟨le_of_not_lt h50, hy⟩
      · exact ih _ _ (by linarith) op hmem

/-- Claim C10: because the bottom-margin check precedes every draw, each
complaint line of the authenticated `generate_fir` is drawn at a vertical
coordinate between the bottom margin 50 and the top margin
`A4height - 50`, for every complaint text. -/
theorem complaint_y_bounds (fir_no victim_name fraud_amount complaint_text : String) :
    ∀ op ∈ (generate_fir_draws fir_no victim_name fraud_amount complaint_text).drop 4,
      50 ≤ op.y ∧ op.y ≤ A4height - 50 := by
  intro op hop
  have hdrop : (generate_fir_draws fir_no victim_name fraud_amount complaint_text).drop 4 =
      drawComplaint (pySplitNl complaint_text) (A4height - 50 - 30 - 20 - 40 - 20) 0 := by
    simp [generate_fir_draws]
  rw [hdrop] at hop
  exact drawComplaint_y_bounds_aux _ _ _ (by linarith) op hop

/-- Claim C10, witness: the single complaint line of an empty complaint is
drawn within the margins. -/
theorem complaint_y_bounds_witness :
    50 ≤ ({ page := 0, x := 50, y := A4height - 50 - 30 - 20 - 40 - 20, text := pyStrip "" } : DrawOp).y ∧
    ({ page := 0, x := 50, y := A4height - 50 - 30 - 20 - 40 - 20, text := pyStrip "" } : DrawOp).y ≤
      A4height - 50 := by
  have hsingle : (generate_fir_draws "" "" "" "").drop 4 =
      [{ page := 0, x := 50, y := A4height - 50 - 30 - 20 - 40 - 20, text := pyStrip "" }] := by
    have h1 : pySplitNl "" = [""] := rfl
    simp only [generate_fir_draws, h1, drawComplaint]
    rw [if_neg (by norm_num [A4height, mmUnit])]
    simp
    all_goals decide
  exact complaint_y_bounds "" "" "" "" _ (by rw [hsingle]; exact List.mem_singleton.mpr rfl)

/-! ### Basename and join lemmas for the round-trip -/

theorem takeWhile_append_of_forall (p : Char → Bool) (l₁ l₂ : List Char)
    (h : ∀ a ∈ l₁, p a = true) :
    (l₁ ++ l₂).takeWhile p = l₁ ++ l₂.takeWhile p := by
  induction l₁ with
  | nil => simp
  | cons c t ih =>
    have hc : p c = true := h c (List.mem_cons_self c t)
    simp [List.takeWhile_cons, hc, ih (fun a ha => h a (List.mem_cons_of_mem _ ha))]

theorem basename_after_last_slash (l m : List Char) (hm : ('/' : Char) ∉ m) :
    ((l ++ '/' :: m).reverse.takeWhile (fun c => c != '/')).reverse = m := by
  have h1 : (l ++ '/' :: m).reverse = m.reverse ++ '/' :: l.reverse := by
    simp [List.reverse_append]
  have hall : ∀ a ∈ m.reverse, (a != '/') = true := by
    intro a ha
    have hne : a ≠ '/' := fun he => hm (he ▸ List.mem_reverse.mp ha)
    exact bne_iff_ne.mpr hne
  rw [h1, takeWhile_append_of_forall _ _ _ hall]
  have hslash : (('/' : Char) != '/') = false := by decide
  simp [List.takeWhile_cons, hslash]

theorem osBasename_eq (t s : String) (pre : List Char) (hs : ('/' : Char) ∉ s.data)
    (ht : t.data = pre ++ '/' :: s.data) : osBasename t = s := by
  apply String.ext
  show ((t.data.reverse.takeWhile fun c => c != '/').reverse) = s.data
  rw [ht, basename_after_last_slash pre s.data hs]

theorem bname_data (u : String) :
    ("FIR_" ++ u ++ ".pdf").data = "FIR_".data ++ (u.data ++ ".pdf".data) := by
  simp [String.data_append]

theorem bname_no_slash (u : String) (hu : ('/' : Char) ∉ u.data) :
    ('/' : Char) ∉ ("FIR_" ++ u ++ ".pdf").data := by
  intro hmem
  rw [bname_data] at hmem
  rcases List.mem_append.mp hmem with h | h
  · exact absurd h (by decide)
  · rcases List.mem_append.mp h with h' | h'
    · exact hu h'
    · exact absurd h' (by decide)

theorem outputFilename_data (u : String) :
    (outputFilename u).data = "generated_pdfs".data ++ '/' :: ("FIR_" ++ u ++ ".pdf").data := by
  rw [bname_data]
  simp only [outputFilename, OUTPUT_DIR, String.data_append, List.append_assoc]
  simp

theorem osBasename_outputFilename (u : String) (hu : ('/' : Char) ∉ u.data) :
    osBasename (outputFilename u) = "FIR_" ++ u ++ ".pdf" :=
  osBasename_eq _ _ _ (bname_no_slash u hu) (outputFilename_data u)

theorem link_data (u : String) :
    ("/download/" ++ ("FIR_" ++ u ++ ".pdf")).data =
      "/download".data ++ '/' :: ("FIR_" ++ u ++ ".pdf").data := by
  rw [String.data_append]
  rw [show ("/download/".data) = "/download".data ++ ['/'] from by decide]
  simp [List.append_assoc]

theorem osBasename_link (u : String) (hu : ('/' : Char) ∉ u.data) :
    osBasename ("/download/" ++ ("FIR_" ++ u ++ ".pdf")) = "FIR_" ++ u ++ ".pdf" :=
  osBasename_eq _ _ _ (bname_no_slash u hu) (link_data u)

theorem osJoin_bname (u : String) :
    osJoin OUTPUT_DIR ("FIR_" ++ u ++ ".pdf") = outputFilename u := by
  have h1 : osStartsWithSlash ("FIR_" ++ u ++ ".pdf") = false := by
    simp only [osStartsWithSlash, bname_data]
    simp only [List.cons_append, List.head?_cons]
    decide
  simp only [osJoin, h1, Bool.false_eq_true, if_false]
  rw [if_neg (by decide)]
  apply String.ext
  rw [outputFilename_data]
  simp only [OUTPUT_DIR, String.data_append, List.append_assoc]
  simp

/-- Claim C8: round-trip — after a successful authenticated `/generate/`
call with fresh uuid text `u` (a uuid4 rendering never contains a slash),
requesting `/download/` with the basename of the returned `download_link`
against the resulting filesystem streams back exactly the content the
generator wrote, as a PDF `FileResponse`. -/
theorem generate_download_roundtrip
    (u user fir_no victim_name fraud_amount complaint_text content : String)
    (fs : List (String × String)) (db : List AuditRow) (hu : ('/' : Char) ∉ u.data) :
    download_file_run
        (osBasename (generate_fir_auth u user fir_no victim_name fraud_amount complaint_text
          content fs db).download_link)
        (generate_fir_auth u user fir_no victim_name fraud_amount complaint_text
          content fs db).fs =
      .fileResponse content ("FIR_" ++ u ++ ".pdf") "application/pdf" := by
  have hlink : (generate_fir_auth u user fir_no victim_name fraud_amount complaint_text
      content fs db).download_link = "/download/" ++ ("FIR_" ++ u ++ ".pdf") := by
    show "/download/" ++ osBasename (outputFilename u) = _
    rw [osBasename_outputFilename u hu]
  have hfs : (generate_fir_auth u user fir_no victim_name fraud_amount complaint_text
      content fs db).fs = (outputFilename u, content) :: fs := rfl
  rw [hlink, osBasename_link u hu, hfs]
  simp only [download_file_run, downloadPath, osJoin_bname]
  simp [pyLookup]

/-- Claim C8, witness: a concrete generate-then-download round-trip returns
the written bytes. -/
theorem generate_download_roundtrip_witness :
    download_file_run
        (osBasename (generate_fir_auth "u1" "admin" "1" "V" "9" "c" "BYTES" [] []).download_link)
        (generate_fir_auth "u1" "admin" "1" "V" "9" "c" "BYTES" [] []).fs =
      .fileResponse "BYTES" ("FIR_" ++ "u1" ++ ".pdf") "application/pdf" :=
  generate_download_roundtrip "u1" "admin" "1" "V" "9" "c" "BYTES" [] [] (by decide)
